import Mathlib

/-!
Verification of the Acquisition & Discovery Engine of the pressure-meter
repository (Go).  The Go source is shallowly embedded below:

* raw register bytes are `Fin 256`; a 4-byte payload is a `List Byte`
  indexed with `List.getD` (all call sites in the source guard the length);
* Go `float64` / `float32` values are modelled exactly: finite values as
  rationals (`ℚ`), plus explicit infinity and NaN constructors
  (`FloatVal`), with Go's comparison semantics (any comparison with NaN
  is false); IEEE-754 bit patterns are decoded exactly into this type;
* Go `time.Duration` is a `ℕ` count of nanoseconds;
* the external Modbus transport (library `goburrow/modbus`) is abstracted
  as an oracle `port → baud → slaveID → Option payload`: `some data` means
  the read-holding-registers transaction succeeded with those bytes,
  `none` means a connect or read failure.  Everything downstream of the
  transport is translated from the repository source.
-/

set_option maxRecDepth 2000

/-- One raw register byte. -/
abbrev Byte := Fin 256

/-- Big-endian 32-bit combination of four bytes, as in
`binary.BigEndian.Uint32(data)` (pressure/scanner.go, pressure/device.go). -/
def bigEndianUint32 (b0 b1 b2 b3 : Byte) : ℕ :=
  ((b0.val * 256 + b1.val) * 256 + b2.val) * 256 + b3.val

/-- Go's `int32(u)` reinterpretation of a 32-bit unsigned value:
two's-complement. -/
def toInt32 (n : ℕ) : ℤ :=
  if n < 2 ^ 31 then (n : ℤ) else (n : ℤ) - 2 ^ 32

/-- Model of a Go floating-point value: finite values are exact rationals,
infinities carry their sign, NaN is a single point. -/
inductive FloatVal
  | finite (q : ℚ)
  | inf (neg : Bool)
  | nan
deriving DecidableEq, Repr

/-- Whether the value is finite (i.e. neither `math.IsNaN` nor `math.IsInf`). -/
def FloatVal.isFinite : FloatVal → Bool
  | .finite _ => true
  | _ => false

/-- Go's `math.IsNaN`. -/
def FloatVal.isNaNB : FloatVal → Bool
  | .nan => true
  | _ => false

/-- Go's `math.IsInf(v, 0)`. -/
def FloatVal.isInfB : FloatVal → Bool
  | .inf _ => true
  | _ => false

/-- Go's `v >= a` for a float `v` and a finite constant `a`
(false on NaN, sign-dependent on infinities). -/
def FloatVal.geQ : FloatVal → ℚ → Bool
  | .finite q, a => decide (a ≤ q)
  | .inf neg, _ => !neg
  | .nan, _ => false

/-- Go's `v <= a` for a float `v` and a finite constant `a`. -/
def FloatVal.leQ : FloatVal → ℚ → Bool
  | .finite q, a => decide (q ≤ a)
  | .inf neg, _ => neg
  | .nan, _ => false

/-- Go's conversion `int(q)` on a finite float: truncation toward zero.
On a reduced rational, integer division of numerator by denominator
truncates toward zero. -/
def trunc64 (q : ℚ) : ℤ := q.num / (q.den : ℤ)

/-- The test `value == float64(int(value*10))/10` used by both confidence
heuristics (pressure/scanner.go): true iff the value is expressible with at
most one fractional decimal digit.  A NaN compares unequal to everything in
Go, so the test is false on NaN; the non-finite cases never reach this test
in the source (the static float parser has already replaced them by 0). -/
def oneDecimalEq : FloatVal → Bool
  | .finite q => decide (q = (trunc64 (q * 10) : ℚ) / 10)
  | _ => false

/-- Exact decoding of a 32-bit IEEE-754 bit pattern, as in
`math.Float32frombits` (a finite float32 is an exact rational). -/
def float32frombits (bits : ℕ) : FloatVal :=
  let s := bits / 2 ^ 31 % 2
  let e := bits / 2 ^ 23 % 2 ^ 8
  let m := bits % 2 ^ 23
  if e = 255 then
    if m = 0 then .inf (s = 1) else .nan
  else
    let frac : ℕ := if e = 0 then m * 2 else (2 ^ 23 + m) * 2 ^ e
    .finite ((if s = 1 then -1 else 1) * (frac : ℚ) / ((2 ^ 150 : ℕ) : ℚ))

/-- pressure/device.go `parseDecimalFormat`: big-endian two's-complement
interpretation divided by 10, with the source's three branches (first byte
0xFF / sign bit set / positive) kept. -/
def parseDecimalFormat (data : List Byte) : FloatVal :=
  let bits := bigEndianUint32 (data.getD 0 0) (data.getD 1 0)
      (data.getD 2 0) (data.getD 3 0)
  let value := toInt32 bits
  if data.getD 0 0 = (255 : Byte) then
    .finite ((value : ℚ) / 10)
  else if bits / 2 ^ 31 % 2 = 1 then
    .finite ((value : ℚ) / 10)
  else
    .finite ((value : ℚ) / 10)

/-- pressure/scanner.go `parseDecimalFormatStatic`: same computation with the
source's single combined negative test. -/
def parseDecimalFormatStatic (data : List Byte) : FloatVal :=
  let bits := bigEndianUint32 (data.getD 0 0) (data.getD 1 0)
      (data.getD 2 0) (data.getD 3 0)
  let value := toInt32 bits
  if data.getD 0 0 = (255 : Byte) ∨ bits / 2 ^ 31 % 2 = 1 then
    .finite ((value : ℚ) / 10)
  else
    .finite ((value : ℚ) / 10)

/-- pressure/device.go `parseFloatFormat`: permute the payload bytes as
[2,3,0,1], combine big-endian, reinterpret as IEEE-754 single precision and
widen to float64 (exact). -/
def parseFloatFormat (data : List Byte) : FloatVal :=
  let i0 := data.getD 2 0
  let i1 := data.getD 3 0
  let i2 := data.getD 0 0
  let i3 := data.getD 1 0
  float32frombits (bigEndianUint32 i0 i1 i2 i3)

/-- pressure/scanner.go `parseFloatFormatStatic`: as `parseFloatFormat`, but a
NaN or infinite result is replaced by 0. -/
def parseFloatFormatStatic (data : List Byte) : FloatVal :=
  let i0 := data.getD 2 0
  let i1 := data.getD 3 0
  let i2 := data.getD 0 0
  let i3 := data.getD 1 0
  match float32frombits (bigEndianUint32 i0 i1 i2 i3) with
  | .finite q => .finite q
  | _ => .finite 0

/-- Go `DataFormatType` constant `DecimalFormat = 0` (pressure/types.go). -/
def DecimalFormat : ℕ := 0

/-- Go `DataFormatType` constant `FloatFormat = 1` (pressure/types.go). -/
def FloatFormat : ℕ := 1

/-- pressure/scanner.go `calculateDecimalConfidence`: additive heuristic score
for the Decimal encoding.  The weights 0.5 / 0.3 / 0.2 are exact rationals. -/
def calculateDecimalConfidence (value : FloatVal) (data : List Byte) : ℚ :=
  let c0 : ℚ := 0
  let c1 := if value.geQ (-10000) && value.leQ 10000 then c0 + 0.5 else c0
  let c2 := if oneDecimalEq value then c1 + 0.3 else c1
  let c3 :=
    if data.getD 0 0 ≠ (255 : Byte) ∧
        (data.getD 0 0 < (128 : Byte) ∨ data.getD 0 0 = (255 : Byte)) then
      c2 + 0.2
    else c2
  c3

/-- pressure/scanner.go `calculateFloatConfidence`: additive heuristic score
for the IEEE-754 word-swapped encoding. -/
def calculateFloatConfidence (value : FloatVal) (data : List Byte) : ℚ :=
  let c0 : ℚ := 0
  let c1 :=
    if value.geQ (-10000) && value.leQ 10000 && !value.isNaNB && !value.isInfB then
      c0 + 0.4
    else c0
  let c2 := if !(oneDecimalEq value) then c1 + 0.3 else c1
  let bits := bigEndianUint32 (data.getD 2 0) (data.getD 3 0)
      (data.getD 0 0) (data.getD 1 0)
  let exponent := bits / 2 ^ 23 % 2 ^ 8
  let c3 := if 0 < exponent ∧ exponent < 255 then c2 + 0.3 else c2
  c3

/-- pressure/scanner.go `detectDataFormat`: decode under both encodings, score
each, return Decimal only when its confidence is strictly greater. -/
def detectDataFormat (data : List Byte) : ℕ × ℚ :=
  let decimalValue := parseDecimalFormatStatic data
  let floatValue := parseFloatFormatStatic data
  let decimalConfidence := calculateDecimalConfidence decimalValue data
  let floatConfidence := calculateFloatConfidence floatValue data
  if floatConfidence < decimalConfidence then (DecimalFormat, decimalConfidence)
  else (FloatFormat, floatConfidence)

/-- pressure/device.go `PressureReading`, restricted to the fields the claims
are about (timestamp, slave ID and the raw-byte copy carry no logic). -/
structure PressureReading where
  pressure : FloatVal
  valid : Bool
  error : Option String
deriving DecidableEq, Repr

/-- pressure/device.go `ReadPressure`, with the Modbus transaction abstracted
as its result: transport error, wrong-length payload and unknown format yield
invalid readings; otherwise the payload is decoded under the session's format
and the reading is marked valid. -/
def readPressure (dataFormat : ℕ) (transport : Except String (List Byte)) :
    PressureReading :=
  match transport with
  | .error e => ⟨.finite 0, false, some e⟩
  | .ok results =>
    if results.length ≠ 4 then ⟨.finite 0, false, some "wrong payload length"⟩
    else if dataFormat = DecimalFormat then ⟨parseDecimalFormat results, true, none⟩
    else if dataFormat = FloatFormat then ⟨parseFloatFormat results, true, none⟩
    else ⟨.finite 0, false, some "unknown data format"⟩

/-- Delivery step of the polling loop in pressure/device.go `Start`: the
non-blocking send on the readings channel of capacity `cap`; when the channel
is full, one (the oldest) queued reading is drained before the send.  With a
single producer this is: append if below capacity, otherwise drop the single
oldest element and append. -/
def deliverReading (cap : ℕ) (queue : List PressureReading)
    (reading : PressureReading) : List PressureReading :=
  if queue.length < cap then queue ++ [reading]
  else queue.drop 1 ++ [reading]

/-- Observable state of a `PressureMeter` session (pressure/device.go):
`running` is the `running` flag, `stopClosed` records that `close(stopCh)`
has happened (the channel is created once, in `NewPressureMeter`, and never
re-created), `loopAlive` says whether a polling goroutine is still consuming
ticks — a goroutine started while `stopCh` is already closed exits on its
first `select`, before any tick. -/
structure MeterState where
  running : Bool
  stopClosed : Bool
  loopAlive : Bool
  queue : List PressureReading
deriving DecidableEq, Repr

/-- State of a freshly constructed `PressureMeter`. -/
def initMeterState : MeterState :=
  ⟨false, false, false, []⟩

/-- pressure/device.go `Start`: no-op when already running; otherwise set
`running` and launch the polling goroutine, which stays alive only if the
stop channel has not already been closed. -/
def startMeter (s : MeterState) : MeterState :=
  if s.running then s
  else { s with running := true, loopAlive := !s.stopClosed }

/-- pressure/device.go `Stop`: no-op when already stopped; otherwise clear
`running` and close the stop channel, which terminates the polling loop. -/
def stopMeter (s : MeterState) : MeterState :=
  if s.running then
    { s with running := false, stopClosed := true, loopAlive := false }
  else s

/-- One ticker tick of the polling loop: a live goroutine performs one
read-and-decode transaction and delivers the resulting reading; with no live
goroutine nothing happens. -/
def tickMeter (cap : ℕ) (s : MeterState) (reading : PressureReading) : MeterState :=
  if s.loopAlive then { s with queue := deliverReading cap s.queue reading }
  else s

/-- Reading value used to instantiate queue and state-machine statements. -/
def sampleReading : PressureReading :=
  ⟨.finite 0, true, none⟩

/-- pressure/types.go `Statistics`, without the `LastTime` wall-clock field. -/
structure Statistics where
  count : ℕ
  min : ℚ
  max : ℚ
  mean : ℚ
  stdDev : ℚ
deriving DecidableEq, Repr

/-- pressure/types.go `Statistics.Update`, translated line by line: the
min/max/mean updates, the accumulator update guarded by `Count > 0`, the
increment of `Count`, and the final in-place division of the accumulator by
`Count - 1` whenever `Count > 1`. -/
def Statistics.update (s : Statistics) (value : ℚ) : Statistics :=
  let s1 :=
    if s.count = 0 then
      { s with min := value, max := value, mean := value }
    else
      let mn := if value < s.min then value else s.min
      let mx := if s.max < value then value else s.max
      let oldMean := s.mean
      let newMean := oldMean + (value - oldMean) / ((s.count : ℚ) + 1)
      let acc :=
        if 0 < s.count then s.stdDev + (value - oldMean) * (value - newMean)
        else s.stdDev
      { s with min := mn, max := mx, mean := newMean, stdDev := acc }
  let s2 := { s1 with count := s.count + 1 }
  if 1 < s2.count then { s2 with stdDev := s2.stdDev / ((s2.count : ℚ) - 1) }
  else s2

/-- pressure/types.go zero value of `Statistics` (also the result of `Reset`). -/
def emptyStatistics : Statistics :=
  ⟨0, 0, 0, 0, 0⟩

/-- Modelled from the spec: the exact sample variance
`sum((x_i - mean)^2) / (n - 1)` of the full sample history, the value a
correct single-pass Welford accumulator would produce; stated from the
spec's words to compare against `Statistics.update`. -/
def specSampleVariance (xs : List ℚ) : ℚ :=
  let n : ℚ := xs.length
  let mean := xs.sum / n
  ((xs.map (fun x => (x - mean) ^ 2)).sum) / (n - 1)

/-- Abstraction of the external Modbus transport used by the scanner: for a
(port, baud rate, station ID) probe, `some data` is a successful
read-holding-registers transaction returning `data`, `none` is a connect or
read failure. -/
abbrev TransportOracle := String → ℕ → ℕ → Option (List Byte)

/-- pressure/scanner.go `DeviceInfo`, restricted to the fields with logic. -/
structure DeviceInfo where
  device : String
  slaveID : ℕ
  responsive : Bool
  dataFormat : ℕ
deriving DecidableEq, Repr

/-- pressure/scanner.go `ScanConfig` (ports are passed separately; timeouts
and the parallel flag carry no sequential logic). -/
structure ScanConfig where
  slaveIDs : List ℕ
  baudRates : List ℕ
  maxDevices : ℕ
  autoDetectFormat : Bool
  skipUnresponsive : Bool
deriving Repr

/-- pressure/scanner.go `ScanResult`, restricted to the aggregated fields. -/
structure ScanResult where
  devices : List DeviceInfo
  totalTested : ℕ
  successful : ℕ
deriving DecidableEq, Repr

/-- pressure/scanner.go `testDevice`: probe one (port, baud, station ID);
responsive iff the transaction succeeds with exactly 4 bytes, in which case
the format is classified when auto-detection is on (the Go zero value of
`DataFormat` is `DecimalFormat`). -/
def testDevice (oracle : TransportOracle) (port : String) (baudRate slaveID : ℕ)
    (autoDetectFormat : Bool) : DeviceInfo :=
  match oracle port baudRate slaveID with
  | none => ⟨port, slaveID, false, DecimalFormat⟩
  | some results =>
    if results.length = 4 then
      ⟨port, slaveID, true,
        if autoDetectFormat then (detectDataFormat results).1 else DecimalFormat⟩
    else ⟨port, slaveID, false, DecimalFormat⟩

/-- Station-ID loop of pressure/scanner.go `scanPortWithBaudRate`: probe each
station ID in turn, and break as soon as the list of tested devices (not the
responsive ones) reaches `maxDevices`. -/
def scanSlaveIDs (oracle : TransportOracle) (port : String) (baudRate : ℕ)
    (cfg : ScanConfig) : List DeviceInfo → List ℕ → List DeviceInfo
  | acc, [] => acc
  | acc, slaveID :: rest =>
    let acc2 := acc ++ [testDevice oracle port baudRate slaveID cfg.autoDetectFormat]
    if cfg.maxDevices ≤ acc2.length then acc2
    else scanSlaveIDs oracle port baudRate cfg acc2 rest

/-- pressure/scanner.go `scanPortWithBaudRate`. -/
def scanPortWithBaudRate (oracle : TransportOracle) (port : String)
    (baudRate : ℕ) (cfg : ScanConfig) : List DeviceInfo :=
  scanSlaveIDs oracle port baudRate cfg [] cfg.slaveIDs

/-- pressure/scanner.go `hasResponsiveDevice`. -/
def hasResponsiveDevice (devices : List DeviceInfo) : Bool :=
  devices.any (·.responsive)

/-- Baud-rate loop of pressure/scanner.go `scanPort`: try each baud rate;
results are appended, and remaining baud rates are skipped once a responsive
device is found at the current one. -/
def scanBaudRates (oracle : TransportOracle) (port : String) (cfg : ScanConfig) :
    List DeviceInfo → List ℕ → List DeviceInfo
  | acc, [] => acc
  | acc, baudRate :: rest =>
    let portDevices := scanPortWithBaudRate oracle port baudRate cfg
    if portDevices.length ≠ 0 then
      let acc2 := acc ++ portDevices
      if hasResponsiveDevice portDevices then acc2
      else scanBaudRates oracle port cfg acc2 rest
    else scanBaudRates oracle port cfg acc rest

/-- pressure/scanner.go `scanPort`. -/
def scanPort (oracle : TransportOracle) (port : String) (cfg : ScanConfig) :
    List DeviceInfo :=
  scanBaudRates oracle port cfg [] cfg.baudRates

/-- Per-port aggregation step of pressure/scanner.go `ScanDevices`: retain a
device iff it is responsive or unresponsive ones are kept, count every test,
count responsive ones as successful. -/
def tallyDevices (cfg : ScanConfig) (res : ScanResult) (found : List DeviceInfo) :
    ScanResult :=
  found.foldl (fun r d =>
    { devices := if !cfg.skipUnresponsive || d.responsive then r.devices ++ [d]
        else r.devices,
      totalTested := r.totalTested + 1,
      successful := r.successful + if d.responsive then 1 else 0 }) res

/-- Port loop of pressure/scanner.go `ScanDevices`: scan each port, aggregate,
and break once the retained-device list reaches `maxDevices`. -/
def scanPorts (oracle : TransportOracle) (cfg : ScanConfig) :
    ScanResult → List String → ScanResult
  | res, [] => res
  | res, port :: rest =>
    let res2 := tallyDevices cfg res (scanPort oracle port cfg)
    if cfg.maxDevices ≤ res2.devices.length then res2
    else scanPorts oracle cfg res2 rest

/-- pressure/scanner.go `ScanDevices` with the serial-port list already
resolved (port auto-enumeration is the external `serial.GetPortsList`). -/
def scanDevices (oracle : TransportOracle) (serialPorts : List String)
    (cfg : ScanConfig) : ScanResult :=
  scanPorts oracle cfg ⟨[], 0, 0⟩ serialPorts

/-- pressure/scanner.go `GetQuickScanConfig`: curated station IDs
[0x16, 1, 2, 3, 4, 5], the single default baud rate 9600, cap 10, with
auto-detection and skip-unresponsive set. -/
def getQuickScanConfig : ScanConfig :=
  ⟨[0x16, 0x01, 0x02, 0x03, 0x04, 0x05], [9600], 10, true, true⟩

/-- pressure/scanner.go `getResponsiveDevices`. -/
def getResponsiveDevices (devices : List DeviceInfo) : List DeviceInfo :=
  devices.filter (·.responsive)

/-- pressure/scanner.go `AutoConfigure`: quick scan with `MaxDevices := 1`;
fail (`none`) when no responsive device was retained, otherwise return the
first responsive device's (port, station ID, encoding). -/
def autoConfigure (oracle : TransportOracle) (serialPorts : List String) :
    Option (String × ℕ × ℕ) :=
  let scanConfig := { getQuickScanConfig with maxDevices := 1 }
  let result := scanDevices oracle serialPorts scanConfig
  match getResponsiveDevices result.devices with
  | [] => none
  | device :: _ => some (device.device, device.slaveID, device.dataFormat)

/-- Transport scenario for the auto-configure analysis: on port "P1" at the
default baud rate, only station ID 1 answers (with a 4-byte payload). -/
def oracleC9 : TransportOracle := fun port baudRate slaveID =>
  if port = "P1" ∧ baudRate = 9600 ∧ slaveID = 1 then some [0, 0, 0, 0] else none

/-- pressure/device.go `Config`: device path, station ID, read interval (in
nanoseconds, Go's `time.Duration`), data format. -/
structure Config where
  device : String
  slaveID : ℕ
  readInterval : ℕ
  dataFormat : ℕ
deriving DecidableEq, Repr

/-- Validation prefix of pressure/device.go `NewPressureMeter` (everything
before the external `handler.Connect()` call): reject a station ID outside
1–247, default a zero read interval to one second, and hand the validated
(station ID, interval, format) to the session being built. -/
def newPressureMeter (config : Config) : Except String (ℕ × ℕ × ℕ) :=
  if config.slaveID < 1 ∨ 247 < config.slaveID then
    .error "invalid slave ID, must be 1-247"
  else
    let readInterval := if config.readInterval = 0 then 1000000000
      else config.readInterval
    .ok (config.slaveID, readInterval, config.dataFormat)

/-- `validateConfig` of the config loader (src/unnamed/part_000): empty device
path, station ID outside 1–247 and read interval below 100ms are rejected
(the existence check on the device path only logs). -/
def validateConfig (config : Config) : Except String Unit :=
  if config.device = "" then .error "device path must not be empty"
  else if config.slaveID < 1 ∨ 247 < config.slaveID then
    .error "slave ID must be 1-247"
  else if config.readInterval < 100000000 then
    .error "read interval must not be below 100ms"
  else .ok ()

/-- Whether an `Except` result is a success. -/
def exceptIsOk {α : Type} : Except String α → Bool
  | .ok _ => true
  | .error _ => false

/-- SPEC-C1: for every 4-byte payload, decoding under the Decimal encoding
returns the big-endian two's-complement 32-bit interpretation divided by
ten, for both the meter's `parseDecimalFormat` and the scanner's
`parseDecimalFormatStatic`; the separate 0xFF-first-byte and sign-bit
branches all compute this identical result. -/
theorem parseDecimalFormat_twos_complement (b0 b1 b2 b3 : Byte) :
    parseDecimalFormat [b0, b1, b2, b3]
      = .finite ((toInt32 (bigEndianUint32 b0 b1 b2 b3) : ℚ) / 10) ∧
    parseDecimalFormatStatic [b0, b1, b2, b3]
      = .finite ((toInt32 (bigEndianUint32 b0 b1 b2 b3) : ℚ) / 10) := by
  constructor <;>
    simp only [parseDecimalFormat, parseDecimalFormatStatic,
      List.getD_cons_zero, List.getD_cons_succ, ite_self]

/-- COUNTEREXAMPLE-C2: on the payload [00 00 7F 80], whose word-swapped bit
pattern is +infinity, the scanner's `parseFloatFormatStatic` returns 0 and
not the non-finite bit-pattern interpretation, refuting the claim that both
decoders equal `float32frombits` on NaN/infinite payloads. -/
theorem parseFloatFormatStatic_nonfinite_counterexample :
    parseFloatFormatStatic [0, 0, 127, 128] = .finite 0 ∧
    float32frombits (bigEndianUint32 127 128 0 0) = .inf false ∧
    FloatVal.finite 0 ≠ FloatVal.inf false := by
  decide

/-- SPEC-C2 (amended): for every 4-byte payload, the meter's
`parseFloatFormat` equals `float32frombits` of the big-endian combination of
the [2,3,0,1]-permuted bytes, on all payloads including NaN/infinite ones;
the scanner's `parseFloatFormatStatic` equals the same interpretation with a
NaN or infinite result replaced by 0. -/
theorem parseFloatFormat_frombits (b0 b1 b2 b3 : Byte) :
    parseFloatFormat [b0, b1, b2, b3]
      = float32frombits (bigEndianUint32 b2 b3 b0 b1) ∧
    parseFloatFormatStatic [b0, b1, b2, b3]
      = (match float32frombits (bigEndianUint32 b2 b3 b0 b1) with
          | .finite q => .finite q
          | _ => .finite 0) := by
  refine ⟨?_, ?_⟩ <;>
    simp only [parseFloatFormat, parseFloatFormatStatic,
      List.getD_cons_zero, List.getD_cons_succ]

/-- COUNTEREXAMPLE-C3: on the payload [00 00 7F 80] whose word-swapped
interpretation is +infinity, `ReadPressure` under the Float format returns a
reading with `Valid = true` and the infinite pressure value, refuting the
claim that such a payload is reported invalid. -/
theorem readPressure_nonfinite_counterexample :
    (readPressure FloatFormat (Except.ok [0, 0, 127, 128])).valid = true ∧
    (readPressure FloatFormat (Except.ok [0, 0, 127, 128])).pressure
      = FloatVal.inf false := by
  decide

/-- SPEC-C3 (amended): for every 4-byte payload whose word-swapped IEEE-754
interpretation is NaN or infinite, `ReadPressure` under the Float format
returns `Valid = true` and propagates the non-finite value unchanged, while
the scanner's static decoder substitutes 0; neither decoder reports the
result as invalid. -/
theorem readPressure_nonfinite_valid (b0 b1 b2 b3 : Byte)
    (h : (parseFloatFormat [b0, b1, b2, b3]).isFinite = false) :
    (readPressure FloatFormat (Except.ok [b0, b1, b2, b3])).valid = true ∧
    (readPressure FloatFormat (Except.ok [b0, b1, b2, b3])).pressure
      = parseFloatFormat [b0, b1, b2, b3] ∧
    parseFloatFormatStatic [b0, b1, b2, b3] = .finite 0 := by
  refine ⟨rfl, rfl, ?_⟩
  simp only [parseFloatFormat, List.getD_cons_zero, List.getD_cons_succ] at h
  simp only [parseFloatFormatStatic, List.getD_cons_zero, List.getD_cons_succ]
  cases hf : float32frombits (bigEndianUint32 b2 b3 b0 b1) with
  | finite q => rw [hf] at h; simp [FloatVal.isFinite] at h
  | inf neg => rfl
  | nan => rfl

/-- WITNESS-C3: the amended statement instantiated at the +infinity payload
[00 00 7F 80]. -/
theorem readPressure_nonfinite_valid_witness :
    (readPressure FloatFormat (Except.ok [0, 0, 127, 128])).valid = true ∧
    (readPressure FloatFormat (Except.ok [0, 0, 127, 128])).pressure
      = parseFloatFormat [0, 0, 127, 128] ∧
    parseFloatFormatStatic [0, 0, 127, 128] = .finite 0 :=
  readPressure_nonfinite_valid 0 0 127 128 (by decide)

/-- COUNTEREXAMPLE-C4: on the payload [80 00 48 00] the Decimal confidence
and the Float confidence are both 0.3, yet `detectDataFormat` returns the
Float encoding, refuting the claim that ties favor Decimal. -/
theorem detectDataFormat_tie_counterexample :
    calculateDecimalConfidence (parseDecimalFormatStatic [128, 0, 72, 0])
        [128, 0, 72, 0]
      = calculateFloatConfidence (parseFloatFormatStatic [128, 0, 72, 0])
        [128, 0, 72, 0] ∧
    detectDataFormat [128, 0, 72, 0] = (FloatFormat, 3 / 10) ∧
    FloatFormat ≠ DecimalFormat := by
  have hd : calculateDecimalConfidence (parseDecimalFormatStatic [128, 0, 72, 0])
      [128, 0, 72, 0] = 3 / 10 := by
    norm_num [calculateDecimalConfidence, parseDecimalFormatStatic,
      bigEndianUint32, toInt32, oneDecimalEq, trunc64, FloatVal.geQ,
      FloatVal.leQ, List.getD_cons_zero, List.getD_cons_succ, Fin.lt_def,
      Fin.ext_iff, show ((255 : Byte) : ℕ) = 255 from rfl,
      show ((128 : Byte) : ℕ) = 128 from rfl,
      show ((72 : Byte) : ℕ) = 72 from rfl,
      show ((0 : Byte) : ℕ) = 0 from rfl]
  have hf : calculateFloatConfidence (parseFloatFormatStatic [128, 0, 72, 0])
      [128, 0, 72, 0] = 3 / 10 := by
    norm_num [calculateFloatConfidence, parseFloatFormatStatic, float32frombits,
      bigEndianUint32, oneDecimalEq, trunc64, FloatVal.geQ, FloatVal.leQ,
      FloatVal.isNaNB, FloatVal.isInfB, List.getD_cons_zero,
      List.getD_cons_succ, Fin.lt_def, Fin.ext_iff,
      show ((255 : Byte) : ℕ) = 255 from rfl,
      show ((128 : Byte) : ℕ) = 128 from rfl,
      show ((72 : Byte) : ℕ) = 72 from rfl,
      show ((0 : Byte) : ℕ) = 0 from rfl]
  refine ⟨hd.trans hf.symm, ?_, by decide⟩
  simp only [detectDataFormat]
  rw [hd, hf, if_neg (lt_irrefl ((3 : ℚ) / 10))]

/-- SPEC-C4 (amended): for every 4-byte payload, `detectDataFormat` returns
the higher-scoring encoding, and on equal confidences it returns the Float
encoding (Decimal is returned only when its confidence is strictly
greater). -/
theorem detectDataFormat_higher_ties_float (data : List Byte) :
    (calculateFloatConfidence (parseFloatFormatStatic data) data
        < calculateDecimalConfidence (parseDecimalFormatStatic data) data →
      detectDataFormat data
        = (DecimalFormat,
            calculateDecimalConfidence (parseDecimalFormatStatic data) data)) ∧
    (calculateDecimalConfidence (parseDecimalFormatStatic data) data
        ≤ calculateFloatConfidence (parseFloatFormatStatic data) data →
      detectDataFormat data
        = (FloatFormat,
            calculateFloatConfidence (parseFloatFormatStatic data) data)) := by
  constructor
  · intro h
    simp only [detectDataFormat]
    rw [if_pos h]
  · intro h
    simp only [detectDataFormat]
    rw [if_neg (not_lt.mpr h)]

/-- WITNESS-C4: the amended statement applied at [00 00 00 00] (Decimal
confidence 1.0 strictly above Float confidence 0.4) and at the tie payload
[80 00 48 00]. -/
theorem detectDataFormat_higher_ties_float_witness :
    detectDataFormat [0, 0, 0, 0]
      = (DecimalFormat,
          calculateDecimalConfidence (parseDecimalFormatStatic [0, 0, 0, 0])
            [0, 0, 0, 0]) ∧
    detectDataFormat [128, 0, 72, 0]
      = (FloatFormat,
          calculateFloatConfidence (parseFloatFormatStatic [128, 0, 72, 0])
            [128, 0, 72, 0]) := by
  constructor
  · refine (detectDataFormat_higher_ties_float [0, 0, 0, 0]).1 ?_
    norm_num [calculateDecimalConfidence, calculateFloatConfidence,
      parseDecimalFormatStatic, parseFloatFormatStatic, float32frombits,
      bigEndianUint32, toInt32, oneDecimalEq, trunc64, FloatVal.geQ,
      FloatVal.leQ, FloatVal.isNaNB, FloatVal.isInfB, List.getD_cons_zero,
      List.getD_cons_succ, Fin.lt_def, Fin.ext_iff,
      show ((255 : Byte) : ℕ) = 255 from rfl,
      show ((128 : Byte) : ℕ) = 128 from rfl,
      show ((0 : Byte) : ℕ) = 0 from rfl]
  · refine (detectDataFormat_higher_ties_float [128, 0, 72, 0]).2 ?_
    norm_num [calculateDecimalConfidence, calculateFloatConfidence,
      parseDecimalFormatStatic, parseFloatFormatStatic, float32frombits,
      bigEndianUint32, toInt32, oneDecimalEq, trunc64, FloatVal.geQ,
      FloatVal.leQ, FloatVal.isNaNB, FloatVal.isInfB, List.getD_cons_zero,
      List.getD_cons_succ, Fin.lt_def, Fin.ext_iff,
      show ((255 : Byte) : ℕ) = 255 from rfl,
      show ((128 : Byte) : ℕ) = 128 from rfl,
      show ((72 : Byte) : ℕ) = 72 from rfl,
      show ((0 : Byte) : ℕ) = 0 from rfl]

/-- SPEC-C5 (code bug): on the all-0xFF payload the first raw byte is 0xFF,
yet `calculateDecimalConfidence` yields 0.8 and not 0.5 + 0.3 + 0.2: the
+0.2 term is not awarded, because the source guard
`data[0] != 0xFF && (data[0] < 0x80 || data[0] == 0xFF)` makes its
`data[0] == 0xFF` disjunct unreachable. -/
theorem calculateDecimalConfidence_ff_no_bonus :
    calculateDecimalConfidence (parseDecimalFormatStatic [255, 255, 255, 255])
        [255, 255, 255, 255] = 0.8 ∧
    ([255, 255, 255, 255] : List Byte).getD 0 0 = (255 : Byte) ∧
    (0.8 : ℚ) ≠ 0.5 + 0.3 + 0.2 := by
  refine ⟨?_, by decide, by norm_num⟩
  norm_num [calculateDecimalConfidence, parseDecimalFormatStatic,
    bigEndianUint32, toInt32, oneDecimalEq, trunc64, FloatVal.geQ, FloatVal.leQ,
    List.getD_cons_zero, List.getD_cons_succ, Fin.lt_def, Fin.ext_iff,
    show ((255 : Byte) : ℕ) = 255 from rfl,
    show ((128 : Byte) : ℕ) = 128 from rfl]

/-- SPEC-C6: the delivery step never lets the queue exceed its capacity;
on a full queue it removes exactly the single oldest reading before
appending the newest; with capacity 2, delivering 3 readings into an empty
queue leaves exactly the 2 most recent, oldest-remaining-first. -/
theorem deliverReading_overwrite_oldest (cap : ℕ) (queue : List PressureReading)
    (reading : PressureReading) (hcap : 1 ≤ cap) (hq : queue.length ≤ cap) :
    (deliverReading cap queue reading).length ≤ cap ∧
    (queue.length = cap →
      deliverReading cap queue reading = queue.drop 1 ++ [reading]) ∧
    ∀ r1 r2 r3 : PressureReading,
      deliverReading 2 (deliverReading 2 (deliverReading 2 [] r1) r2) r3
        = [r2, r3] := by
  refine ⟨?_, ?_, ?_⟩
  · by_cases h : queue.length < cap
    · simp only [deliverReading, if_pos h, List.length_append, List.length_cons,
        List.length_nil]
      omega
    · simp only [deliverReading, if_neg h, List.length_append, List.length_drop,
        List.length_cons, List.length_nil]
      omega
  · intro hfull
    simp only [deliverReading, hfull, lt_irrefl, if_false]
  · intro r1 r2 r3
    rfl

/-- WITNESS-C6: the capacity bound instantiated at capacity 2 and the empty
queue. -/
theorem deliverReading_overwrite_oldest_witness :
    (deliverReading 2 [] sampleReading).length ≤ 2 :=
  (deliverReading_overwrite_oldest 2 [] sampleReading (by decide) (by decide)).1

/-- SPEC-C7 (code bug): `Statistics.Update` divides its accumulator by
`Count - 1` in place on every update, so while feeding [10, 20, 30] still
yields count 3, min 10, max 30, mean 20 and accumulator 100 (sample standard
deviation 10), after the fourth value 40 the accumulator is 400/3, whereas
the exact sample variance of [10, 20, 30, 40] — what a correct single-pass
Welford method produces — is 500/3. -/
theorem statisticsUpdate_variance_deviates :
    ([10, 20, 30] : List ℚ).foldl Statistics.update emptyStatistics
      = ⟨3, 10, 30, 20, 100⟩ ∧
    (([10, 20, 30, 40] : List ℚ).foldl Statistics.update emptyStatistics).stdDev
      = 400 / 3 ∧
    specSampleVariance [10, 20, 30, 40] = 500 / 3 ∧
    (400 / 3 : ℚ) ≠ 500 / 3 := by
  refine ⟨?_, ?_, by norm_num [specSampleVariance], by norm_num⟩ <;>
    norm_num [Statistics.update, emptyStatistics, List.foldl]

/-- SPEC-C8 (code bug): after a Start/Stop cycle, a second `Start` does set
the session to Running, but the stop channel closed by `Stop` is never
re-created, so the freshly launched polling goroutine exits before its first
tick: a tick in this state delivers no reading, while a tick after the first
`Start` delivers one. -/
theorem meterRestart_no_readings :
    (startMeter (stopMeter (startMeter initMeterState))).running = true ∧
    tickMeter 100 (startMeter (stopMeter (startMeter initMeterState)))
        sampleReading
      = startMeter (stopMeter (startMeter initMeterState)) ∧
    (tickMeter 100 (startMeter initMeterState) sampleReading).queue
      = [sampleReading] := by
  decide

/-- SPEC-C9 (code bug): with only station ID 1 responsive on port "P1" at the
default baud rate — a candidate of the curated quick-scan set —
`AutoConfigure` still fails: its `MaxDevices := 1` cap is compared against
the number of *tested* (not responsive) devices inside the station-ID loop,
so only the first curated station ID 0x16 is ever probed. -/
theorem autoConfigure_misses_responsive :
    autoConfigure oracleC9 ["P1"] = none ∧
    (testDevice oracleC9 "P1" 9600 1 true).responsive = true ∧
    1 ∈ getQuickScanConfig.slaveIDs := by
  decide

/-- COUNTEREXAMPLE-C10: `NewPressureMeter` accepts a configuration with a
50ms read interval (station ID 22), although 50ms is below the claimed 100ms
minimum, refuting the claim that construction rejects such intervals. -/
theorem newPressureMeter_short_interval_accepted :
    exceptIsOk (newPressureMeter ⟨"/dev/ttyUSB0", 22, 50000000, 0⟩) = true ∧
    (50000000 : ℕ) < 100000000 := by
  decide

/-- SPEC-C10 (amended): `NewPressureMeter` succeeds exactly when the station
ID lies in 1–247 (an out-of-range ID is fatal to the construction call); a
read interval below the 100ms minimum is not rejected there — that check is
performed by the config loader's `validateConfig`, which fails on any
otherwise-valid configuration with an interval below 100ms. -/
theorem newPressureMeter_validation (config : Config) :
    (exceptIsOk (newPressureMeter config) = true
      ↔ 1 ≤ config.slaveID ∧ config.slaveID ≤ 247) ∧
    (config.device ≠ "" → 1 ≤ config.slaveID → config.slaveID ≤ 247 →
      config.readInterval < 100000000 →
      exceptIsOk (validateConfig config) = false) := by
  constructor
  · by_cases h : config.slaveID < 1 ∨ 247 < config.slaveID
    · simp only [newPressureMeter, if_pos h, exceptIsOk]
      constructor
      · intro hh
        exact absurd hh (by decide)
      · intro hh
        omega
    · simp only [newPressureMeter, if_neg h, exceptIsOk]
      constructor
      · intro _
        omega
      · intro _
        trivial
  · intro hd h1 h2 h3
    simp only [validateConfig, if_neg hd,
      if_neg (show ¬(config.slaveID < 1 ∨ 247 < config.slaveID) by omega),
      if_pos h3]
    rfl

/-- WITNESS-C10: the amended statement applied at the 50ms configuration:
the loader's `validateConfig` rejects it. -/
theorem newPressureMeter_validation_witness :
    exceptIsOk (validateConfig ⟨"/dev/ttyUSB0", 22, 50000000, 0⟩) = false :=
  (newPressureMeter_validation ⟨"/dev/ttyUSB0", 22, 50000000, 0⟩).2
    (by decide) (by decide) (by decide) (by decide)
